import Mathlib

/-!
Shallow embedding of the poll-agents conversational survey server.

The definitions below are translated from the repository sources:
  * `src/civic_voice/models.py` and `src/poll_agents/models.py` (data model),
  * `src/civic_voice/state_machine.py` (the conversation state machine),
  * `src/poll_agents/email_service.py` (verification-code generation),
  * `src/civic_voice/config/settings.py` / `src/poll_agents/config/settings.py`
    (verification settings), and
  * the repository deserializers in `src/civic_voice/repository/local.py` and
    `src/poll_agents/repository/supabase.py`.

Time is modelled as integer seconds, randomness as an oracle `Nat → Fin 10`
(one draw per generated digit), and the per-call effects (email sends,
repository saves) as explicit call traces on the step result.  A Python
exception escaping a handler (KeyError / AttributeError / IndexError) is
modelled as `none`.
-/

namespace CivicVoice

/-- `ConversationState` from `models.py`. -/
inductive ConversationState where
  | WELCOME
  | AWAITING_EMAIL
  | AWAITING_VERIFICATION
  | ASKING_QUESTION_1
  | ASKING_QUESTION_2
  | ASKING_QUESTION_3
  | COMPLETED
  | DISCONNECTED
deriving DecidableEq

/-- `QuestionSet` dataclass fields (`civic_voice/models.py`). -/
structure QuestionSet where
  id : String
  name : String
  questions : List String
  created_at : Int
  active : Bool
deriving DecidableEq

/-- The `QuestionSet` constructor including its `__post_init__` check:
`raise ValueError` (here `none`) unless there are exactly 3 questions. -/
def mkQuestionSet (id name : String) (questions : List String)
    (created_at : Int) (active : Bool) : Option QuestionSet :=
  if questions.length = 3 then
    some ⟨id, name, questions, created_at, active⟩
  else
    none

/-- `AgentResponse` dataclass fields (`civic_voice/models.py`).  The Python
dataclass accepts `None` for `agent_email`, hence `Option String`. -/
structure AgentResponse where
  id : String
  question_set_id : String
  agent_email : Option String
  answers : List Bool
  completed_at : Int
deriving DecidableEq

/-- `AgentSession` dataclass fields (`civic_voice/models.py`).  The Python
`answers` dict from question index to bool is modelled as an association
list; `verification_attempts` is a Python `int`, so `Int` here. -/
structure AgentSession where
  session_id : String
  state : ConversationState
  email : Option String
  verification_code : Option String
  verification_code_created : Option Int
  verification_attempts : Int
  question_set : Option QuestionSet
  answers : List (Nat × Bool)
  created_at : Int
deriving DecidableEq

/-- Python `dict` assignment `answers[k] = v`: overwrite the existing key or
append a new binding. -/
def dictInsert (k : Nat) (v : Bool) : List (Nat × Bool) → List (Nat × Bool)
  | [] => [(k, v)]
  | (k', v') :: rest =>
      if k' = k then (k, v) :: rest else (k', v') :: dictInsert k v rest

/-- Python `dict` lookup `answers[k]`; `none` models a `KeyError`. -/
def dictGet (k : Nat) : List (Nat × Bool) → Option Bool
  | [] => none
  | (k', v') :: rest => if k' = k then some v' else dictGet k rest

/-- Python `answers.get(k, default)`. -/
def dictGetD (d : List (Nat × Bool)) (k : Nat) (dflt : Bool) : Bool :=
  (dictGet k d).getD dflt

/-- Python whitespace characters recognised by `str.strip()`. -/
def isPySpace (c : Char) : Bool :=
  c = ' ' || c = '\t' || c = '\n' || c = '\x0d' || c = '\x0b' || c = '\x0c'

/-- `str.strip()` on the underlying character list: drop whitespace from
both ends. -/
def stripList (cs : List Char) : List Char :=
  ((cs.dropWhile isPySpace).reverse.dropWhile isPySpace).reverse

/-- Python `message.strip()` (`state_machine.py`, line 46). -/
def pyStrip (s : String) : String := ⟨stripList s.data⟩

/-- Characters allowed in the local part of `EMAIL_REGEX`
(`[a-zA-Z0-9._%+-]`). -/
def isLocalChar (c : Char) : Bool :=
  c.isAlpha || c.isDigit || c = '.' || c = '_' || c = '%' || c = '+' || c = '-'

/-- Characters allowed in the host part of `EMAIL_REGEX` (`[a-zA-Z0-9.-]`). -/
def isHostChar (c : Char) : Bool :=
  c.isAlpha || c.isDigit || c = '.' || c = '-'

/-- Split a list at the first occurrence of `c`; `none` when `c` is absent.
`splitAtFirst c l = some (a, b)` means `l = a ++ c :: b` with `c ∉ a`. -/
def splitAtFirst (c : Char) : List Char → Option (List Char × List Char)
  | [] => none
  | x :: xs =>
      if x = c then some ([], xs)
      else (splitAtFirst c xs).map (fun p => (x :: p.1, p.2))

/-- `EMAIL_REGEX.match` for the anchored pattern
`^[a-zA-Z0-9._%+-]+@[a-zA-Z0-9.-]+\.[a-zA-Z]\x7b2,\x7d$`: the string splits
at its unique `@` into a nonempty local part over the local charset, and the
host ends in a dot followed by at least two letters, with everything before
that last dot nonempty and drawn from the host charset. -/
def emailMatch (s : String) : Bool :=
  match splitAtFirst '@' s.data with
  | none => false
  | some (loc, rest) =>
    match splitAtFirst '.' rest.reverse with
    | none => false
    | some (tldRev, preRev) =>
        !loc.isEmpty && loc.all isLocalChar &&
        !preRev.isEmpty && preRev.all isHostChar &&
        decide (2 ≤ tldRev.length) && tldRev.all Char.isAlpha

/-- `YES_NO_REGEX.match` for `^[yn]$` with `re.IGNORECASE`. -/
def yesNoMatch (s : String) : Bool :=
  match s.data with
  | [c] => c.toLower = 'y' || c.toLower = 'n'
  | _ => false

/-- Python `str.lower()`: lowercase each character. -/
def pyLower (s : String) : String := ⟨s.data.map Char.toLower⟩

/-- `answer.lower() == "y"` (only ever evaluated on `[yn]`-matched input). -/
def ansVal (s : String) : Bool := pyLower s == "y"

/-- `string.digits` from the Python standard library. -/
def string_digits : List Char :=
  ['0', '1', '2', '3', '4', '5', '6', '7', '8', '9']

/-- One `secrets.choice(string.digits)` draw, with the randomness supplied
as an index into `string.digits`. -/
def pickDigit (d : Fin 10) : Char :=
  string_digits.get ⟨d.val, by simp [string_digits]⟩

/-- `EmailService.generate_verification_code` (`poll_agents/email_service.py`):
`"".join(secrets.choice(string.digits) for _ in range(length))`.  The state
machine calls it without an argument, i.e. with the Python default
`length = 6`. -/
def generate_verification_code (rng : Nat → Fin 10) (length : Nat) : String :=
  ⟨(List.range length).map (fun i => pickDigit (rng i))⟩

/-- `VerificationSettings` (`config/settings.py`): environment-sourced
`VERIFICATION_CODE_LENGTH` and `VERIFICATION_CODE_EXPIRY_SECONDS`. -/
structure VerificationSettings where
  code_length : Nat
  code_expiry_seconds : Int
deriving DecidableEq

/-- The pydantic defaults: `code_length = 6`, `code_expiry_seconds = 300`. -/
def defaultVerificationSettings : VerificationSettings := ⟨6, 300⟩

/-- The parameters of `ConversationStateMachine.__init__` that the machine
actually stores besides its collaborators: `code_expiry_seconds`. -/
structure Machine where
  code_expiry_seconds : Int
deriving DecidableEq

/-- How `poll_agents/server.py` builds the state machine from settings: only
`settings.verification.code_expiry_seconds` is passed; `code_length` is not. -/
def machineFor (v : VerificationSettings) : Machine :=
  ⟨v.code_expiry_seconds⟩

/-- One recorded `send_verification_email(to_email, code)` call together
with the boolean the collaborator returned. -/
structure EmailCall where
  to_email : String
  code : String
  result : Bool
deriving DecidableEq

/-- The per-call oracle inputs of one `process_input` call: the randomness
stream for code generation, `datetime.now()`, `uuid.uuid4()`, and the
boolean the email collaborator will return. -/
structure Env where
  rng : Nat → Fin 10
  now : Int
  fresh_id : String
  email_ok : Bool

/-- The observable outcome of one `process_input` call: the mutated session,
the returned prompt, and the traces of collaborator calls made. -/
structure StepResult where
  session : AgentSession
  output : String
  email_calls : List EmailCall
  save_calls : List AgentResponse
deriving DecidableEq

/-- The invalid-email prompt (`state_machine.py`, line 65). -/
def invalidEmailPrompt : String :=
  "Invalid email format. Please enter a valid email address:"

/-- The code-sent prompt (`state_machine.py`, line 75). -/
def sentPrompt (email : String) : String :=
  "A verification code has been sent to " ++ email ++
    ". Please enter the code:"

/-- The expired-code prompt (`state_machine.py`, line 88). -/
def expiredPrompt : String :=
  "Verification code expired. Please enter your email again:"

/-- The verification-success prompt (`state_machine.py`, lines 94-100). -/
def verifiedPrompt (q0 : String) : String :=
  "Email verified successfully!\n\nNow, let\x27s begin the civic duty questions.\n\nQuestion 1 of 3:\n"
    ++ q0

/-- The lockout prompt (`state_machine.py`, line 107). -/
def lockoutPrompt : String :=
  "Too many failed attempts. Please enter your email again:"

/-- The wrong-code prompt (`state_machine.py`, line 109). -/
def incorrectPrompt (remaining : Int) : String :=
  "Incorrect code. " ++ toString remaining ++
    " attempt(s) remaining. Please try again:"

/-- The invalid-answer prompt (`state_machine.py`, lines 115-118/142-145). -/
def invalidAnswerPrompt (question : String) : String :=
  "[ERROR: Invalid response. Please answer with \x27y\x27 for yes or \x27n\x27 for no.]\n\n"
    ++ question

/-- The recorded-answer prompt (`state_machine.py`, lines 132-136), taking
the Python `next_question_index` and the next question's text. -/
def recordedPrompt (next_question_index : Nat) (question : String) : String :=
  "Response recorded.\n\nQuestion " ++ toString (next_question_index + 1) ++
    " of 3:\n" ++ question

/-- The fall-through prompt for `WELCOME`/`COMPLETED`/`DISCONNECTED`
(`state_machine.py`, line 60). -/
def sessionErrorPrompt : String := "Session error. Please reconnect."

/-- `_handle_email_input`: validate the address, then store it, generate and
store a code with its issue time, record the email send (whose boolean
result is ignored), and advance to `AWAITING_VERIFICATION`. -/
def handle_email_input (env : Env) (s : AgentSession) (email : String) :
    StepResult :=
  if emailMatch email = false then
    ⟨s, invalidEmailPrompt, [], []⟩
  else
    let code := generate_verification_code env.rng 6
    ⟨{ s with
        email := some email,
        verification_code := some code,
        verification_code_created := some env.now,
        state := ConversationState.AWAITING_VERIFICATION },
      sentPrompt email,
      [⟨email, code, env.email_ok⟩],
      []⟩

/-- The `# Check code` half of `_handle_verification_input`: compare the
submitted code with the stored one (`code == None` is `False` in Python),
then either advance to question 1 or count the failed attempt. -/
def check_verification_code (s : AgentSession) (code : String) :
    Option StepResult :=
  if some code = s.verification_code then
    match s.question_set with
    | none => none
    | some qs =>
        (qs.questions.get? 0).map (fun q0 =>
          ⟨{ s with state := ConversationState.ASKING_QUESTION_1 },
            verifiedPrompt q0, [], []⟩)
  else
    let a := s.verification_attempts + 1
    if 3 ≤ a then
      some ⟨{ s with
                state := ConversationState.AWAITING_EMAIL,
                verification_code := none,
                verification_attempts := 0 },
            lockoutPrompt, [], []⟩
    else
      some ⟨{ s with verification_attempts := a }, incorrectPrompt (3 - a),
            [], []⟩

/-- `_handle_verification_input`: the expiry check (guarded by the Python
truthiness of `verification_code_created`) runs before the code check. -/
def handle_verification_input (m : Machine) (now : Int) (s : AgentSession)
    (code : String) : Option StepResult :=
  match s.verification_code_created with
  | some created =>
      if created + m.code_expiry_seconds < now then
        some ⟨{ s with
                  state := ConversationState.AWAITING_EMAIL,
                  verification_code := none,
                  verification_attempts := 0 },
              expiredPrompt, [], []⟩
      else
        check_verification_code s code
  | none => check_verification_code s code

/-- The `\x7b0: Q2, 1: Q3\x7d[question_index]` dispatch of
`_handle_question_answer`; `none` models the `KeyError`. -/
def nextQuestionState : Nat → Option ConversationState
  | 0 => some ConversationState.ASKING_QUESTION_2
  | 1 => some ConversationState.ASKING_QUESTION_3
  | _ => none

/-- `_handle_question_answer` (questions 1 and 2). -/
def handle_question_answer (s : AgentSession) (answer : String)
    (question_index : Nat) : Option StepResult :=
  if yesNoMatch answer = false then
    match s.question_set with
    | none => none
    | some qs =>
        (qs.questions.get? question_index).map (fun q =>
          ⟨s, invalidAnswerPrompt q, [], []⟩)
  else
    let ans := dictInsert question_index (ansVal answer) s.answers
    match nextQuestionState question_index with
    | none => none
    | some st =>
      match s.question_set with
      | none => none
      | some qs =>
          (qs.questions.get? (question_index + 1)).map (fun q =>
            ⟨{ s with answers := ans, state := st },
              recordedPrompt (question_index + 1) q, [], []⟩)

/-- `_handle_final_question_answer`: record answer 2, complete the session,
build the `AgentResponse` from `answers[0..2]` (a missing key is a
`KeyError`, i.e. `none`), and save it via the repository exactly once. -/
def handle_final_question_answer (now : Int) (fresh_id : String)
    (s : AgentSession) (answer : String) : Option StepResult :=
  if yesNoMatch answer = false then
    match s.question_set with
    | none => none
    | some qs =>
        (qs.questions.get? 2).map (fun q =>
          ⟨s, invalidAnswerPrompt q, [], []⟩)
  else
    match s.question_set with
    | none => none
    | some qs =>
      let ans := dictInsert 2 (ansVal answer) s.answers
      match dictGet 0 ans, dictGet 1 ans, dictGet 2 ans with
      | some a0, some a1, some a2 =>
          some ⟨{ s with
                    answers := ans,
                    state := ConversationState.COMPLETED },
                "",
                [],
                [⟨fresh_id, qs.id, s.email, [a0, a1, a2], now⟩]⟩
      | _, _, _ => none

/-- `ConversationStateMachine.process_input`: strip the input, then dispatch
on the current state. -/
def process_input (m : Machine) (env : Env) (s : AgentSession)
    (message : String) : Option StepResult :=
  let msg := pyStrip message
  match s.state with
  | ConversationState.AWAITING_EMAIL =>
      some (handle_email_input env s msg)
  | ConversationState.AWAITING_VERIFICATION =>
      handle_verification_input m env.now s msg
  | ConversationState.ASKING_QUESTION_1 => handle_question_answer s msg 0
  | ConversationState.ASKING_QUESTION_2 => handle_question_answer s msg 1
  | ConversationState.ASKING_QUESTION_3 =>
      handle_final_question_answer env.now env.fresh_id s msg
  | _ => some ⟨s, sessionErrorPrompt, [], []⟩

/-- The fixed header lines of `get_summary`. -/
def summaryHeader : List String :=
  ["", "=== Civic Duty Complete ===", "", "Summary of your responses:", ""]

/-- The fixed footer lines of `get_summary`. -/
def summaryFooter : List String :=
  ["Thank you for participating in AI Civic Duty!",
   "Your responses contribute to improving AI-human collaboration.",
   "",
   "[Connection will now close]"]

/-- The three lines `get_summary` appends for question `i`:
`Q\x7bi+1\x7d: question`, the Yes/No answer line built from
`answers.get(i, False)`, and a blank line. -/
def summaryBlock (answers : List (Nat × Bool)) (i : Nat) (question : String) :
    List String :=
  ["Q" ++ toString (i + 1) ++ ": " ++ question,
   "    Your answer: " ++ (if dictGetD answers i false then "Yes" else "No"),
   ""]

/-- `ConversationStateMachine.get_summary`: the enumerate-and-append loop
over the bound question set (`none` models the `AttributeError` when no
question set is bound). -/
def get_summary (s : AgentSession) : Option String :=
  match s.question_set with
  | none => none
  | some qs =>
      let body := qs.questions.enum.foldl
        (fun acc p => acc ++ summaryBlock s.answers p.1 p.2) []
      some (String.intercalate "\n" (summaryHeader ++ body ++ summaryFooter))

/-- A row of the local JSON question-set file
(`civic_voice/repository/local.py`); `active` uses `data.get("active", True)`
so it is optional. -/
structure QSRow where
  id : String
  name : String
  questions : List String
  created_at : Int
  active : Option Bool
deriving DecidableEq

/-- `LocalQuestionSetRepository._to_model`: build a `QuestionSet` from a row;
the dataclass `__post_init__` length check applies. -/
def local_to_model (row : QSRow) : Option QuestionSet :=
  mkQuestionSet row.id row.name row.questions row.created_at
    (row.active.getD true)

/-- `QuestionSet` from `poll_agents/models.py`: three separate question
fields `q1`, `q2`, `q3`. -/
structure PAQuestionSet where
  id : String
  name : String
  q1 : String
  q2 : String
  q3 : String
  created_at : Int
  active : Bool
deriving DecidableEq

/-- The `questions` property of the poll-agents `QuestionSet`. -/
def PAQuestionSet.questions (qs : PAQuestionSet) : List String :=
  [qs.q1, qs.q2, qs.q3]

/-- A Supabase `question_sets` row as a partial record: a missing required
column is a `KeyError` during deserialization. -/
structure PARow where
  id : Option String
  name : Option String
  q1 : Option String
  q2 : Option String
  q3 : Option String
  created_at : Option Int
  active : Option Bool
deriving DecidableEq

/-- `SupabaseQuestionSetRepository._to_model`: read the required columns
(`none` models the `KeyError` on a missing one) and default `active`. -/
def supabase_to_model (row : PARow) : Option PAQuestionSet :=
  match row.id, row.name, row.q1, row.q2, row.q3, row.created_at with
  | some id, some name, some q1, some q2, some q3, some created_at =>
      some ⟨id, name, q1, q2, q3, created_at, row.active.getD true⟩
  | _, _, _, _, _, _ => none

/-! ### Concrete fixtures used by witnesses -/

/-- A concrete three-question survey. -/
def sampleQS : QuestionSet := ⟨"qs1", "Survey", ["Qa?", "Qb?", "Qc?"], 0, true⟩

/-- A fresh session in `AWAITING_EMAIL` bound to `sampleQS`. -/
def emailSession : AgentSession :=
  ⟨"sid", ConversationState.AWAITING_EMAIL, none, none, none, 0,
    some sampleQS, [], 0⟩

/-- A session in `AWAITING_VERIFICATION` holding code `482913` issued at
time 0. -/
def verSession : AgentSession :=
  ⟨"sid", ConversationState.AWAITING_VERIFICATION, some "agent@example.com",
    some "482913", some 0, 0, some sampleQS, [], 0⟩

/-- A session on question 1 with no answers yet. -/
def q1Session : AgentSession :=
  ⟨"sid", ConversationState.ASKING_QUESTION_1, some "agent@example.com",
    none, none, 0, some sampleQS, [], 0⟩

/-- A session on question 3 with the first two answers recorded. -/
def q3Session : AgentSession :=
  ⟨"sid", ConversationState.ASKING_QUESTION_3, some "agent@example.com",
    none, none, 0, some sampleQS, [(0, true), (1, false)], 0⟩

/-! ### Helper lemmas -/

/-- Looking up the key just inserted returns the inserted value. -/
lemma dictGet_insert_self (k : Nat) (v : Bool) (d : List (Nat × Bool)) :
    dictGet k (dictInsert k v d) = some v := by
  induction d with
  | nil => simp [dictInsert, dictGet]
  | cons p rest ih =>
    rcases p with ⟨k', v'⟩
    by_cases h : k' = k
    · simp [dictInsert, dictGet, h]
    · simp [dictInsert, dictGet, h, ih]

/-- Inserting one key does not change lookups of a different key. -/
lemma dictGet_insert_ne (k j : Nat) (hkj : j ≠ k) (v : Bool)
    (d : List (Nat × Bool)) :
    dictGet j (dictInsert k v d) = dictGet j d := by
  induction d with
  | nil => simp [dictInsert, dictGet, Ne.symm hkj]
  | cons p rest ih =>
    rcases p with ⟨k', v'⟩
    by_cases h : k' = k
    · subst h
      simp [dictInsert, dictGet, Ne.symm hkj]
    · simp [dictInsert, dictGet, h, ih]

/-- `dropWhile` is idempotent. -/
lemma dropWhile_dropWhile (p : Char → Bool) (l : List Char) :
    (l.dropWhile p).dropWhile p = l.dropWhile p := by
  induction l with
  | nil => rfl
  | cons a t ih =>
    by_cases h : p a
    · simp [List.dropWhile_cons, h, ih]
    · simp [List.dropWhile_cons, h]

/-- The head of a nonempty `dropWhile` result fails the predicate. -/
lemma head_dropWhile_false (p : Char → Bool) (l : List Char) :
    ∀ a t, l.dropWhile p = a :: t → p a = false := by
  induction l with
  | nil => intro a t h; cases h
  | cons x xs ih =>
    intro a t h
    by_cases hx : p x
    · exact ih a t (by simpa [List.dropWhile_cons, hx] using h)
    · simp [List.dropWhile_cons, hx] at h
      rw [← h.1]
      simpa using hx

/-- `dropWhile` on a list ending in `a` yields `[]` or a list ending in
`a`. -/
lemma dropWhile_append_singleton (p : Char → Bool) (m : List Char)
    (a : Char) :
    (m ++ [a]).dropWhile p = [] ∨
    ∃ w, (m ++ [a]).dropWhile p = w ++ [a] := by
  induction m with
  | nil =>
    by_cases h : p a
    · left; simp [List.dropWhile_cons, h]
    · right; exact ⟨[], by simp [List.dropWhile_cons, h]⟩
  | cons x xs ih =>
    by_cases h : p x
    · simpa [List.dropWhile_cons, h] using ih
    · right; exact ⟨x :: xs, by simp [List.dropWhile_cons, h]⟩

/-- Trimming trailing characters preserves front-trimmedness. -/
lemma front_trimmed_back_trim (p : Char → Bool) (m : List Char)
    (hm : m.dropWhile p = m) :
    ((m.reverse.dropWhile p).reverse).dropWhile p =
      (m.reverse.dropWhile p).reverse := by
  rcases m with _ | ⟨a, t⟩
  · simp
  · have ha : p a = false := head_dropWhile_false p (a :: t) a t hm
    rcases dropWhile_append_singleton p t.reverse a with h | ⟨w, hw⟩
    · rw [List.reverse_cons, h]
      simp
    · rw [List.reverse_cons, hw, List.reverse_append]
      simp [List.dropWhile_cons, ha]

/-- `stripList` is idempotent. -/
lemma stripList_idem (l : List Char) : stripList (stripList l) = stripList l := by
  unfold stripList
  rw [front_trimmed_back_trim isPySpace (l.dropWhile isPySpace)
        (dropWhile_dropWhile isPySpace l),
      List.reverse_reverse,
      dropWhile_dropWhile isPySpace (l.dropWhile isPySpace).reverse]

/-- Python `strip` is idempotent. -/
lemma pyStrip_idem (s : String) : pyStrip (pyStrip s) = pyStrip s := by
  simp [pyStrip, stripList_idem]

/-- Every digit picked from `string.digits` is a decimal digit. -/
lemma pickDigit_isDigit : ∀ d : Fin 10, (pickDigit d).isDigit = true := by
  decide

/-- A generated verification code has exactly the requested length. -/
lemma generate_code_length (rng : Nat → Fin 10) (n : Nat) :
    (generate_verification_code rng n).length = n := by
  simp [generate_verification_code, String.length]

/-- A generated verification code consists only of decimal digits. -/
lemma generate_code_digits (rng : Nat → Fin 10) (n : Nat) :
    (generate_verification_code rng n).data.all Char.isDigit = true := by
  simp only [generate_verification_code, List.all_map]
  simp [List.all_eq_true, Function.comp, pickDigit_isDigit]

/-- Appending blocks with `foldl` is concatenation of the blocks. -/
lemma foldl_append_blocks {α β : Type} (f : α → List β) (l : List α)
    (init : List β) :
    l.foldl (fun acc x => acc ++ f x) init = init ++ l.flatMap f := by
  induction l generalizing init with
  | nil => simp
  | cons a t ih => simp [List.foldl_cons, ih]

/-! ### Claims -/

/-- C2: in `AWAITING_VERIFICATION`, once the current time is strictly past
`issue_time + code_expiry_seconds`, every verification attempt — whatever
the submitted input, including the stored code itself — is rejected before
any equality check: the session returns to `AWAITING_EMAIL` with the stored
code cleared and the attempt counter reset to 0. -/
theorem c2_expired_code_rejected (m : Machine) (env : Env) (s : AgentSession)
    (t : Int) (msg : String)
    (hst : s.state = ConversationState.AWAITING_VERIFICATION)
    (hcr : s.verification_code_created = some t)
    (hexp : t + m.code_expiry_seconds < env.now) :
    process_input m env s msg =
      some ⟨{ s with state := ConversationState.AWAITING_EMAIL,
                     verification_code := none,
                     verification_attempts := 0 },
            expiredPrompt, [], []⟩ := by
  simp [process_input, hst, handle_verification_input, hcr, hexp]

/-- Witness for C2: submitting the exactly matching code `482913` one second
after expiry is still rejected and the session resets. -/
theorem c2_witness :
    process_input ⟨300⟩ ⟨fun _ => 0, 301, "r", true⟩ verSession "482913" =
      some ⟨{ verSession with state := ConversationState.AWAITING_EMAIL,
                              verification_code := none,
                              verification_attempts := 0 },
            expiredPrompt, [], []⟩ :=
  c2_expired_code_rejected ⟨300⟩ ⟨fun _ => 0, 301, "r", true⟩ verSession 0
    "482913" rfl rfl (by decide)

/-- C5: a valid email submitted in `AWAITING_EMAIL` advances the session to
`AWAITING_VERIFICATION` whatever boolean the email collaborator returns;
the resulting session and prompt do not depend on the delivery result. -/
theorem c5_advances_regardless_of_delivery (m : Machine) (env : Env)
    (s : AgentSession) (msg : String) (ok : Bool)
    (hst : s.state = ConversationState.AWAITING_EMAIL)
    (hm : emailMatch (pyStrip msg) = true) :
    (∃ r, process_input m ⟨env.rng, env.now, env.fresh_id, ok⟩ s msg =
        some r ∧
        r.session.state = ConversationState.AWAITING_VERIFICATION) ∧
    (process_input m ⟨env.rng, env.now, env.fresh_id, ok⟩ s msg).map
        (fun r => (r.session, r.output)) =
      (process_input m env s msg).map (fun r => (r.session, r.output)) := by
  constructor
  · refine ⟨handle_email_input ⟨env.rng, env.now, env.fresh_id, ok⟩ s
        (pyStrip msg), ?_, ?_⟩
    · simp [process_input, hst]
    · simp [handle_email_input, hm]
  · simp [process_input, hst, handle_email_input, hm]

/-- Witness for C5: with a collaborator that reports delivery failure, the
session still advances to `AWAITING_VERIFICATION`. -/
theorem c5_witness :
    (∃ r, process_input ⟨300⟩
        ⟨(⟨fun _ => 0, 0, "r", true⟩ : Env).rng,
         (⟨fun _ => 0, 0, "r", true⟩ : Env).now,
         (⟨fun _ => 0, 0, "r", true⟩ : Env).fresh_id, false⟩
        emailSession "agent@example.com" = some r ∧
        r.session.state = ConversationState.AWAITING_VERIFICATION) ∧
    (process_input ⟨300⟩
        ⟨(⟨fun _ => 0, 0, "r", true⟩ : Env).rng,
         (⟨fun _ => 0, 0, "r", true⟩ : Env).now,
         (⟨fun _ => 0, 0, "r", true⟩ : Env).fresh_id, false⟩
        emailSession "agent@example.com").map
        (fun r => (r.session, r.output)) =
      (process_input ⟨300⟩ ⟨fun _ => 0, 0, "r", true⟩ emailSession
          "agent@example.com").map (fun r => (r.session, r.output)) :=
  c5_advances_regardless_of_delivery ⟨300⟩ ⟨fun _ => 0, 0, "r", true⟩
    emailSession "agent@example.com" false rfl (by decide)

/-- C6: in each of the three question states, an input that is not a
case-insensitive `y` or `n` leaves the whole session (state and answer
mapping included) unchanged, and the returned prompt is the validation
error followed by the very question being asked. -/
theorem c6_invalid_answer_frame (m : Machine) (env : Env) (s : AgentSession)
    (qs : QuestionSet) (msg : String) (i : Nat) (q : String)
    (hcase : (s.state = ConversationState.ASKING_QUESTION_1 ∧ i = 0) ∨
             (s.state = ConversationState.ASKING_QUESTION_2 ∧ i = 1) ∨
             (s.state = ConversationState.ASKING_QUESTION_3 ∧ i = 2))
    (hqs : s.question_set = some qs)
    (hq : qs.questions.get? i = some q)
    (hno : yesNoMatch (pyStrip msg) = false) :
    process_input m env s msg = some ⟨s, invalidAnswerPrompt q, [], []⟩ := by
  rw [List.get?_eq_getElem?] at hq
  rcases hcase with ⟨hst, hi⟩ | ⟨hst, hi⟩ | ⟨hst, hi⟩ <;> subst hi <;>
    simp [process_input, hst, handle_question_answer,
      handle_final_question_answer, hqs, hno, hq]

/-- Witness for C6: the input `maybe` on question 1 changes nothing and the
question is repeated. -/
theorem c6_witness :
    process_input ⟨300⟩ ⟨fun _ => 0, 0, "r", true⟩ q1Session "maybe" =
      some ⟨q1Session, invalidAnswerPrompt "Qa?", [], []⟩ :=
  c6_invalid_answer_frame ⟨300⟩ ⟨fun _ => 0, 0, "r", true⟩ q1Session sampleQS
    "maybe" 0 "Qa?" (Or.inl ⟨rfl, rfl⟩) rfl rfl (by decide)

/-- C1 (counterexample): with `VERIFICATION_CODE_LENGTH` configured to 7,
a valid email submission still stores a 6-digit code — the state machine
calls `generate_verification_code()` without the configured length. -/
theorem c1_counterexample :
    ((process_input (machineFor ⟨7, 300⟩) ⟨fun _ => 0, 0, "r", true⟩
        ⟨"sid", ConversationState.AWAITING_EMAIL, none, none, none, 0, none,
          [], 0⟩
        "agent@example.com").bind
      (fun r => r.session.verification_code.map String.length)) = some 6 ∧
    (6 : Nat) ≠ (⟨7, 300⟩ : VerificationSettings).code_length :=
  ⟨by rfl, by decide⟩

/-- C1 (amended): for every session in `AWAITING_EMAIL` and every input
matching the email pattern, `process_input` stores a verification code of
exactly 6 decimal digits (the generator's own default length — the
configured `code_length` is not consulted) together with its issue time,
and transitions the session to `AWAITING_VERIFICATION`. -/
theorem c1_code_generation_amended (v : VerificationSettings) (env : Env)
    (s : AgentSession) (msg : String)
    (hst : s.state = ConversationState.AWAITING_EMAIL)
    (hm : emailMatch (pyStrip msg) = true) :
    process_input (machineFor v) env s msg =
      some ⟨{ s with
                email := some (pyStrip msg),
                verification_code :=
                  some (generate_verification_code env.rng 6),
                verification_code_created := some env.now,
                state := ConversationState.AWAITING_VERIFICATION },
            sentPrompt (pyStrip msg),
            [⟨pyStrip msg, generate_verification_code env.rng 6,
              env.email_ok⟩],
            []⟩ ∧
    (generate_verification_code env.rng 6).length = 6 ∧
    (generate_verification_code env.rng 6).data.all Char.isDigit = true := by
  refine ⟨?_, generate_code_length env.rng 6, generate_code_digits env.rng 6⟩
  simp [process_input, hst, handle_email_input, hm]

/-- Witness for C1 (amended): a concrete valid email yields the 6-digit
code `000000`, its issue time, and the `AWAITING_VERIFICATION` state. -/
theorem c1_witness :
    process_input (machineFor ⟨6, 300⟩) ⟨fun _ => 0, 5, "r", true⟩
        emailSession "agent@example.com" =
      some ⟨{ emailSession with
                email := some (pyStrip "agent@example.com"),
                verification_code :=
                  some (generate_verification_code (fun _ => 0) 6),
                verification_code_created := some 5,
                state := ConversationState.AWAITING_VERIFICATION },
            sentPrompt (pyStrip "agent@example.com"),
            [⟨pyStrip "agent@example.com",
              generate_verification_code (fun _ => 0) 6, true⟩],
            []⟩ ∧
    (generate_verification_code (fun _ => (0 : Fin 10)) 6).length = 6 ∧
    (generate_verification_code (fun _ => (0 : Fin 10)) 6).data.all
        Char.isDigit = true :=
  c1_code_generation_amended ⟨6, 300⟩ ⟨fun _ => 0, 5, "r", true⟩ emailSession
    "agent@example.com" rfl (by decide)

/-- C4: in `ASKING_QUESTION_3`, a valid y/n input records answer 2,
completes the session, performs exactly one repository save carrying the
three recorded answers in question order, and returns the empty string;
the recorded third answer is `true` exactly when the lowercased input is
`y`. -/
theorem c4_final_answer_completes_and_saves (m : Machine) (env : Env)
    (s : AgentSession) (qs : QuestionSet) (msg : String) (a0 a1 : Bool)
    (hst : s.state = ConversationState.ASKING_QUESTION_3)
    (hqs : s.question_set = some qs)
    (hy : yesNoMatch (pyStrip msg) = true)
    (h0 : dictGet 0 s.answers = some a0)
    (h1 : dictGet 1 s.answers = some a1) :
    process_input m env s msg =
      some ⟨{ s with
                answers := dictInsert 2 (ansVal (pyStrip msg)) s.answers,
                state := ConversationState.COMPLETED },
            "", [],
            [⟨env.fresh_id, qs.id, s.email,
              [a0, a1, ansVal (pyStrip msg)], env.now⟩]⟩ ∧
    (ansVal (pyStrip msg) = true ↔ pyLower (pyStrip msg) = "y") := by
  constructor
  · have h0' : dictGet 0 (dictInsert 2 (ansVal (pyStrip msg)) s.answers) =
        some a0 := by rw [dictGet_insert_ne 2 0 (by decide)]; exact h0
    have h1' : dictGet 1 (dictInsert 2 (ansVal (pyStrip msg)) s.answers) =
        some a1 := by rw [dictGet_insert_ne 2 1 (by decide)]; exact h1
    have h2' : dictGet 2 (dictInsert 2 (ansVal (pyStrip msg)) s.answers) =
        some (ansVal (pyStrip msg)) := dictGet_insert_self 2 _ s.answers
    simp [process_input, hst, handle_final_question_answer, hqs, hy,
      h0', h1', h2']
  · simp [ansVal]

/-- Witness for C4: answering `y` on question 3 completes the session and
saves the answers `[true, false, true]` exactly once with an empty reply. -/
theorem c4_witness :
    process_input ⟨300⟩ ⟨fun _ => 0, 9, "resp1", true⟩ q3Session "y" =
      some ⟨{ q3Session with
                answers := dictInsert 2 (ansVal (pyStrip "y"))
                  q3Session.answers,
                state := ConversationState.COMPLETED },
            "", [],
            [⟨"resp1", sampleQS.id, q3Session.email,
              [true, false, ansVal (pyStrip "y")], 9⟩]⟩ ∧
    (ansVal (pyStrip "y") = true ↔ pyLower (pyStrip "y") = "y") :=
  c4_final_answer_completes_and_saves ⟨300⟩ ⟨fun _ => 0, 9, "resp1", true⟩
    q3Session sampleQS "y" true false rfl rfl (by decide) rfl rfl

/-- C8: a `QuestionSet` can only come into existence with exactly three
questions: the civic-voice constructor succeeds exactly on three-question
lists, the local-file deserializer only produces three-question values, and
the Supabase deserializer (whose model has fixed fields `q1`, `q2`, `q3`)
only produces three-question values. -/
theorem c8_question_set_three :
    (∀ (id name : String) (questions : List String) (created_at : Int)
        (active : Bool),
        (∃ qs, mkQuestionSet id name questions created_at active = some qs ∧
            qs.questions = questions) ↔ questions.length = 3) ∧
    (∀ row qs, local_to_model row = some qs → qs.questions.length = 3) ∧
    (∀ row qs, supabase_to_model row = some qs →
        qs.questions.length = 3) := by
  refine ⟨?_, ?_, ?_⟩
  · intro id name questions created_at active
    constructor
    · rintro ⟨qs, hqs, -⟩
      by_contra h
      simp [mkQuestionSet, h] at hqs
    · intro h
      exact ⟨⟨id, name, questions, created_at, active⟩,
        by simp [mkQuestionSet, h], rfl⟩
  · intro row qs h
    unfold local_to_model mkQuestionSet at h
    split at h
    · cases h
      assumption
    · cases h
  · intro row qs h
    unfold supabase_to_model at h
    split at h
    · cases h
      rfl
    · cases h

/-- Witness for C8: a two-question row fails local deserialization, while a
three-question row produces a value with three questions. -/
theorem c8_witness :
    ((∃ qs, mkQuestionSet "i" "n" ["a", "b"] 0 true = some qs ∧
        qs.questions = ["a", "b"]) ↔ (["a", "b"] : List String).length = 3) ∧
    (⟨"i", "n", ["a", "b", "c"], 0, true⟩ : QuestionSet).questions.length =
      3 :=
  ⟨c8_question_set_three.1 "i" "n" ["a", "b"] 0 true,
   c8_question_set_three.2.1 ⟨"i", "n", ["a", "b", "c"], 0, none⟩
     ⟨"i", "n", ["a", "b", "c"], 0, true⟩ rfl⟩

/-- C9: `get_summary` renders exactly one three-line Yes/No block per
question, in question order; a question index missing from the answer
mapping renders as `No`; and the summary is a pure function of the answer
mapping and the bound question set alone (so it cannot modify the
session). -/
theorem c9_get_summary_spec (s : AgentSession) (qs : QuestionSet)
    (hqs : s.question_set = some qs) :
    get_summary s =
      some (String.intercalate "\n"
        (summaryHeader ++
          qs.questions.enum.flatMap (fun p => summaryBlock s.answers p.1 p.2)
          ++ summaryFooter)) ∧
    (∀ t : AgentSession, t.question_set = s.question_set →
        t.answers = s.answers → get_summary t = get_summary s) ∧
    (∀ i q, dictGet i s.answers = none →
        summaryBlock s.answers i q =
          ["Q" ++ toString (i + 1) ++ ": " ++ q, "    Your answer: No",
            ""]) := by
  refine ⟨?_, ?_, ?_⟩
  · simp [get_summary, hqs, foldl_append_blocks]
  · intro t ht ha
    simp [get_summary, ht, hqs, ha]
  · intro i q h
    simp [summaryBlock, dictGetD, h]

/-- Witness for C9: a session with only question 1 answered renders `No`
for the missing question 2. -/
theorem c9_witness :
    summaryBlock [(0, true)] 1 "Qb?" =
      ["Q" ++ toString (1 + 1) ++ ": " ++ "Qb?", "    Your answer: No",
        ""] :=
  (c9_get_summary_spec
      ⟨"sid", ConversationState.COMPLETED, some "agent@example.com", none,
        none, 0, some sampleQS, [(0, true)], 0⟩
      sampleQS rfl).2.2 1 "Qb?" rfl

/-- C10: `process_input` strips leading and trailing whitespace before any
validation — processing any input is the same as processing its stripped
form — so a surrounded `y` passes the yes/no check (as a yes) and an email
address surrounded by spaces passes the email check. -/
theorem c10_strip_before_validation :
    (∀ (m : Machine) (env : Env) (s : AgentSession) (msg : String),
        process_input m env s msg = process_input m env s (pyStrip msg)) ∧
    yesNoMatch (pyStrip " y ") = true ∧
    ansVal (pyStrip " y ") = true ∧
    emailMatch (pyStrip "  agent@example.com  ") = true := by
  refine ⟨?_, by decide, by decide, by decide⟩
  intro m env s msg
  simp [process_input, pyStrip_idem]

/-- C3: a wrong, unexpired code increments the attempt counter by exactly 1
while the state, stored code and everything else stay put; once the counter
reaches 3 the session resets to `AWAITING_EMAIL` with the counter back at 0
and the code cleared; and across every `process_input` call the counter
stays within 0..3. -/
theorem c3_attempt_counter :
    (∀ (m : Machine) (env : Env) (s : AgentSession) (msg : String)
        (r : StepResult),
        s.state = ConversationState.AWAITING_VERIFICATION →
        (∀ t, s.verification_code_created = some t →
            ¬(t + m.code_expiry_seconds < env.now)) →
        some (pyStrip msg) ≠ s.verification_code →
        process_input m env s msg = some r →
        ((s.verification_attempts + 1 < 3 →
            r.session.verification_attempts = s.verification_attempts + 1 ∧
            r.session.state = ConversationState.AWAITING_VERIFICATION ∧
            r.session.verification_code = s.verification_code) ∧
         (3 ≤ s.verification_attempts + 1 →
            r.session.state = ConversationState.AWAITING_EMAIL ∧
            r.session.verification_attempts = 0 ∧
            r.session.verification_code = none))) ∧
    (∀ (m : Machine) (env : Env) (s : AgentSession) (msg : String)
        (r : StepResult),
        0 ≤ s.verification_attempts → s.verification_attempts ≤ 3 →
        process_input m env s msg = some r →
        0 ≤ r.session.verification_attempts ∧
        r.session.verification_attempts ≤ 3) := by
  constructor
  · intro m env s msg r hst hnexp hne h
    simp only [process_input, hst] at h
    unfold handle_verification_input check_verification_code at h
    rcases hcr : s.verification_code_created with _ | t <;>
      simp only [hcr] at h
    · rw [if_neg hne] at h
      constructor
      · intro hlt
        rw [if_neg (by omega)] at h
        injection h with h
        subst h
        exact ⟨rfl, hst, rfl⟩
      · intro hge
        rw [if_pos hge] at h
        injection h with h
        subst h
        exact ⟨rfl, rfl, rfl⟩
    · rw [if_neg (hnexp t hcr), if_neg hne] at h
      constructor
      · intro hlt
        rw [if_neg (by omega)] at h
        injection h with h
        subst h
        exact ⟨rfl, hst, rfl⟩
      · intro hge
        rw [if_pos hge] at h
        injection h with h
        subst h
        exact ⟨rfl, rfl, rfl⟩
  · intro m env s msg r h0 h3 h
    cases hst : s.state <;> simp only [process_input, hst] at h
    case WELCOME | COMPLETED | DISCONNECTED =>
      injection h with h
      subst h
      exact ⟨h0, h3⟩
    case AWAITING_EMAIL =>
      injection h with h
      subst h
      unfold handle_email_input
      split
      · exact ⟨h0, h3⟩
      · exact ⟨h0, h3⟩
    case AWAITING_VERIFICATION =>
      unfold handle_verification_input check_verification_code at h
      rcases hcr : s.verification_code_created with _ | t <;>
        simp only [hcr] at h
      · split at h
        · rcases hqs : s.question_set with _ | qs <;> simp only [hqs] at h
          · cases h
          · rw [Option.map_eq_some'] at h
            rcases h with ⟨q0, -, hq0⟩
            subst hq0
            exact ⟨h0, h3⟩
        · split at h
          · injection h with h
            subst h
            exact ⟨by simp, by simp⟩
          · rename_i hlt
            injection h with h
            subst h
            constructor <;> simp <;> omega
      · split at h
        · injection h with h
          subst h
          exact ⟨by simp, by simp⟩
        · split at h
          · rcases hqs : s.question_set with _ | qs <;> simp only [hqs] at h
            · cases h
            · rw [Option.map_eq_some'] at h
              rcases h with ⟨q0, -, hq0⟩
              subst hq0
              exact ⟨h0, h3⟩
          · split at h
            · injection h with h
              subst h
              exact ⟨by simp, by simp⟩
            · rename_i hlt
              injection h with h
              subst h
              constructor <;> simp <;> omega
    case ASKING_QUESTION_1 | ASKING_QUESTION_2 =>
      unfold handle_question_answer at h
      split at h
      · rcases hqs : s.question_set with _ | qs <;> simp only [hqs] at h
        · cases h
        · rw [Option.map_eq_some'] at h
          rcases h with ⟨q, -, hq⟩
          subst hq
          exact ⟨h0, h3⟩
      · simp only [nextQuestionState] at h
        rcases hqs : s.question_set with _ | qs <;> simp only [hqs] at h
        · cases h
        · rw [Option.map_eq_some'] at h
          rcases h with ⟨q, -, hq⟩
          subst hq
          exact ⟨h0, h3⟩
    case ASKING_QUESTION_3 =>
      unfold handle_final_question_answer at h
      split at h
      · rcases hqs : s.question_set with _ | qs <;> simp only [hqs] at h
        · cases h
        · rw [Option.map_eq_some'] at h
          rcases h with ⟨q, -, hq⟩
          subst hq
          exact ⟨h0, h3⟩
      · rcases hqs : s.question_set with _ | qs <;> simp only [hqs] at h
        · cases h
        · split at h <;>
            first
              | (injection h with h; subst h; exact ⟨h0, h3⟩)
              | cases h

/-- Witness for C3: a first wrong attempt against the unexpired code
`482913` increments the counter from 0 to 1 and stays in
`AWAITING_VERIFICATION` with the code intact. -/
theorem c3_witness :
    (⟨{ verSession with verification_attempts := 1 }, incorrectPrompt 2, [],
        []⟩ : StepResult).session.verification_attempts =
      verSession.verification_attempts + 1 ∧
    (⟨{ verSession with verification_attempts := 1 }, incorrectPrompt 2, [],
        []⟩ : StepResult).session.state =
      ConversationState.AWAITING_VERIFICATION ∧
    (⟨{ verSession with verification_attempts := 1 }, incorrectPrompt 2, [],
        []⟩ : StepResult).session.verification_code =
      verSession.verification_code :=
  (c3_attempt_counter.1 ⟨300⟩ ⟨fun _ => 0, 1, "r", true⟩ verSession "000000"
      ⟨{ verSession with verification_attempts := 1 }, incorrectPrompt 2, [],
        []⟩
      rfl (by intro t ht; simp [verSession] at ht; subst ht; decide) (by decide)
      (by rfl)).1
    (by decide)

/-- C7 (counterexample): the claim that a validated, stored email is never
changed by a later `process_input` call is false — after storing
`a@example.com`, an expired verification attempt resets the session to
`AWAITING_EMAIL` (keeping the email), and a later valid submission of
`b@example.com` overwrites it. -/
theorem c7_counterexample :
    ((process_input ⟨300⟩ ⟨fun _ => 0, 0, "r1", true⟩
        ⟨"sid", ConversationState.AWAITING_EMAIL, none, none, none, 0,
          some ⟨"qs1", "Survey", ["Qa?", "Qb?", "Qc?"], 0, true⟩, [], 0⟩
        "a@example.com").bind (fun r1 =>
      (process_input ⟨300⟩ ⟨fun _ => 0, 1000, "r2", true⟩ r1.session
          "000000").bind (fun r2 =>
        (process_input ⟨300⟩ ⟨fun _ => 0, 1001, "r3", true⟩ r2.session
            "b@example.com").map (fun r3 =>
          (r1.session.email, r3.session.email))))) =
      some (some "a@example.com", some "b@example.com") ∧
    ("a@example.com" : String) ≠ "b@example.com" :=
  ⟨by rfl, by decide⟩

/-- C7 (amended): the session's email is only ever (re)assigned by a valid
email submission while the session is in `AWAITING_EMAIL` — which can recur
after an expiry or lockout reset; every other `process_input` call leaves
the stored email unchanged. -/
theorem c7_email_amended (m : Machine) (env : Env) (s : AgentSession)
    (msg : String) (r : StepResult)
    (h : process_input m env s msg = some r) :
    r.session.email = s.email ∨
    (s.state = ConversationState.AWAITING_EMAIL ∧
     emailMatch (pyStrip msg) = true ∧
     r.session.email = some (pyStrip msg)) := by
  cases hst : s.state <;> simp only [process_input, hst] at h
  case WELCOME | COMPLETED | DISCONNECTED =>
    injection h with h
    subst h
    exact Or.inl rfl
  case AWAITING_EMAIL =>
    injection h with h
    subst h
    unfold handle_email_input
    split
    · exact Or.inl rfl
    · next he =>
        exact Or.inr ⟨rfl, by simpa using he, rfl⟩
  case AWAITING_VERIFICATION =>
    unfold handle_verification_input check_verification_code at h
    left
    rcases hcr : s.verification_code_created with _ | t <;>
      simp only [hcr] at h
    · split at h
      · rcases hqs : s.question_set with _ | qs <;> simp only [hqs] at h
        · cases h
        · rw [Option.map_eq_some'] at h
          rcases h with ⟨q0, -, hq0⟩
          subst hq0
          rfl
      · split at h <;> (injection h with h; subst h; rfl)
    · split at h
      · injection h with h
        subst h
        rfl
      · split at h
        · rcases hqs : s.question_set with _ | qs <;> simp only [hqs] at h
          · cases h
          · rw [Option.map_eq_some'] at h
            rcases h with ⟨q0, -, hq0⟩
            subst hq0
            rfl
        · split at h <;> (injection h with h; subst h; rfl)
  case ASKING_QUESTION_1 | ASKING_QUESTION_2 =>
    unfold handle_question_answer at h
    left
    split at h
    · rcases hqs : s.question_set with _ | qs <;> simp only [hqs] at h
      · cases h
      · rw [Option.map_eq_some'] at h
        rcases h with ⟨q, -, hq⟩
        subst hq
        rfl
    · simp only [nextQuestionState] at h
      rcases hqs : s.question_set with _ | qs <;> simp only [hqs] at h
      · cases h
      · rw [Option.map_eq_some'] at h
        rcases h with ⟨q, -, hq⟩
        subst hq
        rfl
  case ASKING_QUESTION_3 =>
    unfold handle_final_question_answer at h
    left
    split at h
    · rcases hqs : s.question_set with _ | qs <;> simp only [hqs] at h
      · cases h
      · rw [Option.map_eq_some'] at h
        rcases h with ⟨q, -, hq⟩
        subst hq
        rfl
    · rcases hqs : s.question_set with _ | qs <;> simp only [hqs] at h
      · cases h
      · split at h <;>
          first
            | (injection h with h; subst h; rfl)
            | cases h

/-- Witness for C7 (amended): an invalid answer on question 3 leaves the
stored email untouched. -/
theorem c7_witness :
    (⟨q3Session, invalidAnswerPrompt "Qc?", [], []⟩ :
        StepResult).session.email = q3Session.email ∨
    (q3Session.state = ConversationState.AWAITING_EMAIL ∧
     emailMatch (pyStrip "zzz") = true ∧
     (⟨q3Session, invalidAnswerPrompt "Qc?", [], []⟩ :
         StepResult).session.email = some (pyStrip "zzz")) :=
  c7_email_amended ⟨300⟩ ⟨fun _ => 0, 0, "r", true⟩ q3Session "zzz"
    ⟨q3Session, invalidAnswerPrompt "Qc?", [], []⟩ (by rfl)

end CivicVoice
